import Mathlib

/-!
Verification development for the model-loading module of `alexandra_ai_eval`
(`src/aiai_eval/model_loading.py` and `src/aiai_eval/exceptions.py`).

The module is glue code: a dispatcher (`load_model`) that, depending on a
framework enum, calls one of two adapter functions (`load_pytorch_model`,
`load_spacy_model`), each of which delegates the heavy lifting to an external
library and translates a small set of library exceptions into project-specific
exception types.

The external collaborators (the Hugging Face hub client, spaCy, pip) are
modelled as oracles: records of functions returning `Except PyExc`, so the
embedded loaders are ordinary Lean functions quantified over every possible
behaviour of these collaborators.  Python exception propagation is modelled by
the `Except` monad; Python's in-place mutation of `model_config` is modelled by
returning the (possibly updated) configuration alongside the result.
-/

namespace AiaiEval

/-- Modelled from the spec: the `Framework` enum from `aiai_eval.enums` is not
among the provided sources.  The spec describes "a framework enum" that the
dispatcher validates; the dispatcher in `model_loading.py` handles the members
`PYTORCH`, `JAX` and `SPACY` and rejects every other member, which we represent
with the constructor `other`.  It is a string-valued enum, whose string value
(`Framework.str`) is what gets interpolated into exception messages. -/
inductive Framework where
  | pytorch
  | jax
  | spacy
  | other (name : String)
  deriving DecidableEq, Repr

/-- Modelled from the spec: the string value of a `Framework` enum member. -/
def Framework.str : Framework → String
  | .pytorch => "pytorch"
  | .jax => "jax"
  | .spacy => "spacy"
  | .other name => name

/-- `exceptions.py`: `class InvalidEvaluation(Exception)`.  The attributes set
by `__init__` are the fields. -/
structure InvalidEvaluation where
  message : String
  deriving DecidableEq, Repr

/-- `exceptions.py`, `InvalidEvaluation.__init__`: stores the message (whose
Python default is "This model cannot be evaluated on the given dataset."). -/
def InvalidEvaluation.init (message : String) : InvalidEvaluation :=
  { message := message }

/-- `exceptions.py`: the Python default for `InvalidEvaluation.__init__`'s
`message` parameter. -/
def InvalidEvaluation.default_message : String :=
  "This model cannot be evaluated on the given dataset."

/-- `exceptions.py`: `class ModelFetchFailed(Exception)`.  The attributes set
by `__init__` are the fields. -/
structure ModelFetchFailed where
  model_id : String
  error_msg : String
  message : String
  deriving DecidableEq, Repr

/-- `exceptions.py`, `ModelFetchFailed.__init__(model_id, error_msg,
message="")`: stores `model_id` and `error_msg`, and stores as `message` the
given message if it is truthy (non-empty) and otherwise the default template
built from `model_id` and `error_msg`. -/
def ModelFetchFailed.init (model_id error_msg message : String) :
    ModelFetchFailed :=
  { model_id := model_id
    error_msg := error_msg
    message :=
      if message = "" then
        "Download of " ++ model_id ++
          " from the Hugging Face Hub failed, with the following error message: "
          ++ error_msg ++ "."
      else message }

/-- `exceptions.py`: `class InvalidFramework(Exception)`.  The attributes set
by `__init__` are the fields. -/
structure InvalidFramework where
  framework : Framework
  message : String
  deriving DecidableEq, Repr

/-- `exceptions.py`, `InvalidFramework.__init__(framework)`: stores the
framework and a message interpolating its string value. -/
def InvalidFramework.init (framework : Framework) : InvalidFramework :=
  { framework := framework
    message := "The framework " ++ framework.str ++ " is not supported." }

/-- The Python exceptions that can cross the boundaries of the embedded
functions: the library exceptions the module catches (`OSError`, `ValueError`,
`CalledProcessError`), the project exceptions it raises (from
`exceptions.py`), and a constructor for any other exception an external
collaborator may raise. -/
inductive PyExc where
  | osError (msg : String)
  | valueError (msg : String)
  | calledProcessError (output : String)
  | invalidEvaluation (exc : InvalidEvaluation)
  | invalidFramework (exc : InvalidFramework)
  | modelFetchFailed (exc : ModelFetchFailed)
  | otherError (msg : String)
  deriving DecidableEq, Repr

/-- Modelled from the spec: `ModelConfig` from `aiai_eval.config` is not among
the provided sources; these are exactly the fields `model_loading.py` reads or
writes (`model_id`, `revision`, `framework`). -/
structure ModelConfig where
  model_id : String
  revision : String
  framework : Framework
  deriving DecidableEq, Repr

/-- Modelled from the spec: `TaskConfig` from `aiai_eval.config` is not among
the provided sources; `model_loading.py` reads only `supertask`. -/
structure TaskConfig where
  supertask : String
  deriving DecidableEq, Repr

/-- Modelled from the spec: `EvaluationConfig` from `aiai_eval.config` is not
among the provided sources; `model_loading.py` reads `use_auth_token`,
`cache_dir` and `device`. -/
structure EvaluationConfig where
  use_auth_token : Bool
  cache_dir : String
  device : String
  deriving DecidableEq, Repr

/-- An opaque handle for a pretrained-model configuration returned by
`AutoConfig.from_pretrained`; the module only reads its `architectures`
attribute (which may be `None`). -/
structure HFConfig where
  architectures : Option (List String)
  deriving DecidableEq, Repr

/-- An opaque handle for a Hugging Face `AutoModel` class returned by
`get_class_by_name`. -/
structure ModelCls where
  cls_name : String
  deriving DecidableEq, Repr

/-- An opaque handle for a loaded PyTorch model object; the module only reads
`type(model).__name__`, modelled by `class_name`. -/
structure PTModel where
  class_name : String
  deriving DecidableEq, Repr

/-- A tokenizer object as the module observes it: its optional
`model_max_length` attribute and its optional `max_model_input_sizes`
dictionary (`none` models the attribute being absent). -/
structure Tokenizer where
  model_max_length : Option Int
  max_model_input_sizes : Option (List (String × Int))
  deriving DecidableEq, Repr

/-- An opaque handle for a loaded spaCy pipeline object. -/
structure SpacyModel where
  pipeline_id : Nat
  deriving DecidableEq, Repr

/-- A value stored in the dictionary the loaders return. -/
inductive Artifact where
  | pt (model : PTModel)
  | tok (tokenizer : Tokenizer)
  | spacyModel (model : SpacyModel)
  deriving DecidableEq, Repr

/-- The dictionary the loaders return, as an association list. -/
abbrev LoadDict := List (String × Artifact)

/-- Modelled from the spec: the external collaborators of the PyTorch path, as
an oracle over all their possible behaviours.  Fields are, in order of use in
`load_pytorch_model`:
`auto_config model_id revision use_auth_token` for
`AutoConfig.from_pretrained`; `check_supertask architectures supertask` for
`aiai_eval.utils.check_supertask` (not among the provided sources, may raise);
`get_class_by_name class_name module_name` for
`aiai_eval.utils.get_class_by_name` (not among the provided sources, returns
`None` when no class is found); `from_pretrained cls model_id revision
use_auth_token config cache_dir from_flax` for the auto-model class method;
`adjust_model_to_task model model_config task_config` for
`aiai_eval.model_adjustment.adjust_model_to_task` (not among the provided
sources, adjusts the model in place and may raise); and `auto_tokenizer
model_id revision use_auth_token use_fast add_prefix_space` for
`AutoTokenizer.from_pretrained`. -/
structure PytorchHub where
  auto_config : String → String → Bool → Except PyExc HFConfig
  check_supertask : Option (List String) → String → Except PyExc Unit
  get_class_by_name : String → String → Option ModelCls
  from_pretrained :
    ModelCls → String → String → Bool → HFConfig → String → Bool →
      Except PyExc PTModel
  adjust_model_to_task : PTModel → ModelConfig → TaskConfig → Except PyExc Unit
  auto_tokenizer : String → String → Bool → Bool → Bool → Except PyExc Tokenizer

/-- Modelled from the spec: the external collaborators of the spaCy path.
`is_module_installed` is `aiai_eval.utils.is_module_installed` (not among the
provided sources); `pip_install url` is `subprocess.run(["pip3", "install",
url])`, which may raise; `spacy_load local_model_id` is `spacy.load`. -/
structure SpacyHub where
  is_module_installed : String → Bool
  pip_install : String → Except PyExc Unit
  spacy_load : String → Except PyExc SpacyModel

/-- `model_loading.py`, `load_pytorch_model`, the `try` block: load the
configuration, check the supertask, look up the model class (raising
`InvalidEvaluation` when it cannot be found), and instantiate the model. -/
def pytorch_try_block (hub : PytorchHub) (model_config : ModelConfig)
    (from_flax : Bool) (task_config : TaskConfig)
    (evaluation_config : EvaluationConfig) : Except PyExc PTModel :=
  match hub.auto_config model_config.model_id model_config.revision
      evaluation_config.use_auth_token with
  | .error e => .error e
  | .ok config =>
    match hub.check_supertask config.architectures task_config.supertask with
    | .error e => .error e
    | .ok _ =>
      match hub.get_class_by_name
          ("auto-model-for-" ++ task_config.supertask) "transformers" with
      | none =>
        .error (.invalidEvaluation (InvalidEvaluation.init
          ("The supertask \x27" ++ task_config.supertask ++
            "\x27 does not correspond to a Hugging Face " ++
            " AutoModel type (such as `AutoModelForSequenceClassification`).")))
      | some model_cls =>
        hub.from_pretrained model_cls model_config.model_id
          model_config.revision evaluation_config.use_auth_token config
          evaluation_config.cache_dir from_flax

/-- `model_loading.py`, `load_pytorch_model`, the message of the
`InvalidEvaluation` raised by the `except (OSError, ValueError)` clause. -/
def pytorch_load_error_msg (model_id : String) : String :=
  "The model " ++ model_id ++ " either does not have a frameworks " ++
    "registered, or it is a private model. If it is a private model then " ++
    "enable the `--use-auth-token` flag and make  sure that you are " ++
    "logged in to the Hub via the `huggingface-cli login` command."

/-- `model_loading.py`, `load_pytorch_model`, the `except (OSError,
ValueError)` clause: an `OSError` or `ValueError` escaping the `try` block is
replaced by an `InvalidEvaluation`; every other exception propagates. -/
def translate_load_error (model_id : String) (e : PyExc) : PyExc :=
  match e with
  | .osError _ => .invalidEvaluation (InvalidEvaluation.init
      (pytorch_load_error_msg model_id))
  | .valueError _ => .invalidEvaluation (InvalidEvaluation.init
      (pytorch_load_error_msg model_id))
  | e => e

/-- Python's substring test `needle in hay` on strings. -/
def py_in_str (needle hay : String) : Bool :=
  decide (needle.toList <:+: hay.toList)

/-- `model_loading.py`, `load_pytorch_model`: the block setting the maximal
length of the tokenizer.  If the tokenizer has no `model_max_length` attribute
or its value exceeds 1000, it is set to the minimum of
`max_model_input_sizes.values()` when that attribute exists and its values are
non-empty, and to 512 otherwise; Python's `min` over a non-empty list is the
fold of binary `min` over its head and tail. -/
def set_tokenizer_max_length (tokenizer : Tokenizer) : Tokenizer :=
  let needs_update : Bool :=
    match tokenizer.model_max_length with
    | none => true
    | some len => decide (len > 1000)
  if needs_update then
    match tokenizer.max_model_input_sizes with
    | some sizes =>
      match sizes.map Prod.snd with
      | [] => { tokenizer with model_max_length := some 512 }
      | x :: xs =>
        { tokenizer with model_max_length := some (List.foldl min x xs) }
    | none => { tokenizer with model_max_length := some 512 }
  else tokenizer

/-- `model_loading.py`, `load_pytorch_model`: run the `try` block with its
`except` clause, adjust the model to the task, load the tokenizer with
`use_fast=True` and `add_prefix_space` set iff "Roberta" occurs in the model's
class name, set the tokenizer's maximal length, and return the dictionary
`dict(model=model, tokenizer=tokenizer)`.  (`model.eval()` and
`model.to(device)` act in place on the model object and are identity on the
handle.) -/
def load_pytorch_model (hub : PytorchHub) (model_config : ModelConfig)
    (from_flax : Bool) (task_config : TaskConfig)
    (evaluation_config : EvaluationConfig) : Except PyExc LoadDict :=
  match pytorch_try_block hub model_config from_flax task_config
      evaluation_config with
  | .error e => .error (translate_load_error model_config.model_id e)
  | .ok model =>
    match hub.adjust_model_to_task model model_config task_config with
    | .error e => .error e
    | .ok _ =>
      let m_id := model_config.model_id
      let addPrefixSpace := py_in_str "Roberta" model.class_name
      match hub.auto_tokenizer m_id model_config.revision
          evaluation_config.use_auth_token true addPrefixSpace with
      | .error e => .error e
      | .ok tokenizer =>
        let tokenizer := set_tokenizer_max_length tokenizer
        .ok [("model", Artifact.pt model), ("tokenizer", Artifact.tok tokenizer)]

/-- Python's `str.split` with a one-character separator, on character lists:
`py_split_char sep l` is the list of (possibly empty) chunks of `l` between
occurrences of `sep`. -/
def py_split_char (sep : Char) : List Char → List (List Char)
  | [] => [[]]
  | c :: cs =>
    if c = sep then [] :: py_split_char sep cs
    else
      match py_split_char sep cs with
      | [] => [[c]]
      | r :: rs => (c :: r) :: rs

/-- `model_loading.py`, `load_spacy_model`:
`local_model_id = model_id.split("/")[-1]`. -/
def local_model_id (model_id : String) : String :=
  String.mk ((py_split_char '/' model_id.toList).getLastD [])

/-- `model_loading.py`, `load_spacy_model`: the wheel URL handed to
`pip3 install`. -/
def wheel_url (model_id local_id : String) : String :=
  "https://huggingface.co/" ++ model_id ++ "/resolve/main/" ++ local_id ++
    "-any-py3-none-any.whl"

/-- `model_loading.py`, `load_spacy_model`, the first `try` block: download
the model if it has not already been so (`pip3 install` of the wheel URL when
`is_module_installed` is false). -/
def spacy_install_step (hub : SpacyHub) (model_id : String) :
    Except PyExc Unit :=
  if hub.is_module_installed (local_model_id model_id) then .ok ()
  else hub.pip_install (wheel_url model_id (local_model_id model_id))

/-- `model_loading.py`, `load_spacy_model`: compute the local model id,
install the model wheel if the module is not installed (translating
`CalledProcessError` into `ModelFetchFailed` with the local id and the process
output), then `spacy.load` the local id (translating `OSError` into
`ModelFetchFailed` with the full id, the error text, and an explicit message),
and return `dict(model=model)`. -/
def load_spacy_model (hub : SpacyHub) (model_id : String) :
    Except PyExc LoadDict :=
  let local_id := local_model_id model_id
  match spacy_install_step hub model_id with
  | .error (.calledProcessError output) =>
    .error (.modelFetchFailed (ModelFetchFailed.init local_id output ""))
  | .error e => .error e
  | .ok _ =>
    match hub.spacy_load local_id with
    | .error (.osError msg) =>
      .error (.modelFetchFailed (ModelFetchFailed.init model_id msg
        ("Download of " ++ model_id ++
          " failed, with the following error message: " ++ msg ++ ".")))
    | .error e => .error e
    | .ok model => .ok [("model", Artifact.spacyModel model)]

/-- `model_loading.py`, `load_model`: record whether the framework is JAX (as
`from_flax`), overwrite a JAX framework with PyTorch on the configuration
itself (an in-place mutation, modelled by returning the updated configuration
in the first component), and dispatch: PyTorch to `load_pytorch_model`, spaCy
to `load_spacy_model`, anything else raises `InvalidFramework` carrying the
framework. -/
def load_model (pytorch_hub : PytorchHub) (spacy_hub : SpacyHub)
    (model_config : ModelConfig) (task_config : TaskConfig)
    (evaluation_config : EvaluationConfig) :
    ModelConfig × Except PyExc LoadDict :=
  let from_flax := decide (model_config.framework = Framework.jax)
  let model_config :=
    if model_config.framework = Framework.jax then
      { model_config with framework := Framework.pytorch }
    else model_config
  if model_config.framework = Framework.pytorch then
    (model_config,
      load_pytorch_model pytorch_hub model_config from_flax task_config
        evaluation_config)
  else if model_config.framework = Framework.spacy then
    (model_config, load_spacy_model spacy_hub model_config.model_id)
  else
    (model_config,
      .error (.invalidFramework (InvalidFramework.init model_config.framework)))

/-! ### Concrete sample data

Concrete configurations and oracle behaviours, used to evaluate the embedded
loaders on closed inputs. -/

def tc0 : TaskConfig := { supertask := "sequence-classification" }

def ec0 : EvaluationConfig :=
  { use_auth_token := false, cache_dir := ".cache", device := "cpu" }

def mc_pt : ModelConfig :=
  { model_id := "org/bert-base", revision := "main",
    framework := Framework.pytorch }

def mc_jax : ModelConfig :=
  { model_id := "org/flax-bert", revision := "main",
    framework := Framework.jax }

def mc_spacy : ModelConfig :=
  { model_id := "spacy/da_core_news_sm", revision := "main",
    framework := Framework.spacy }

def mc_other : ModelConfig :=
  { model_id := "org/tf-model", revision := "main",
    framework := Framework.other "tensorflow" }

def tok0 : Tokenizer :=
  { model_max_length := some 512, max_model_input_sizes := none }

def bert_model : PTModel := { class_name := "BertForSequenceClassification" }

def hub_ok : PytorchHub :=
  { auto_config := fun _ _ _ =>
      .ok { architectures := some ["BertForSequenceClassification"] }
    check_supertask := fun _ _ => .ok ()
    get_class_by_name := fun _ _ =>
      some { cls_name := "AutoModelForSequenceClassification" }
    from_pretrained := fun _ _ _ _ _ _ _ => .ok bert_model
    adjust_model_to_task := fun _ _ _ => .ok ()
    auto_tokenizer := fun _ _ _ _ _ => .ok tok0 }

def hub_os_err : PytorchHub :=
  { hub_ok with auto_config := fun _ _ _ => .error (.osError "boom") }

def tok_big : Tokenizer :=
  { model_max_length := some 100000,
    max_model_input_sizes := some [("a", 512), ("b", 256)] }

def sm0 : SpacyModel := { pipeline_id := 7 }

def spacy_ok : SpacyHub :=
  { is_module_installed := fun _ => true
    pip_install := fun _ => .ok ()
    spacy_load := fun _ => .ok sm0 }

def spacy_cpe : SpacyHub :=
  { spacy_ok with
    is_module_installed := fun _ => false
    pip_install := fun _ => .error (.calledProcessError "pip failed") }

def spacy_ose : SpacyHub :=
  { spacy_ok with spacy_load := fun _ => .error (.osError "no model") }

/-! ### Helper lemmas

Facts about `py_split_char` (the embedding of Python's `str.split`) and about
Python's `min` over a non-empty list (a fold of binary `min`). -/

theorem py_split_char_ne_nil (sep : Char) (l : List Char) :
    py_split_char sep l ≠ [] := by
  induction l with
  | nil => simp [py_split_char]
  | cons c cs ih =>
    simp only [py_split_char]
    split
    · simp
    · cases h : py_split_char sep cs <;> simp

theorem py_split_char_of_not_mem (sep : Char) (l : List Char) (h : sep ∉ l) :
    py_split_char sep l = [l] := by
  induction l with
  | nil => rfl
  | cons c cs ih =>
    rw [List.mem_cons, not_or] at h
    simp only [py_split_char]
    rw [if_neg (fun hc => h.1 hc.symm), ih h.2]

theorem py_split_char_length_ge_two (sep : Char) (l : List Char)
    (h : sep ∈ l) : 2 ≤ (py_split_char sep l).length := by
  induction l with
  | nil => cases h
  | cons c cs ih =>
    simp only [py_split_char]
    by_cases hc : c = sep
    · rw [if_pos hc]
      have hne := py_split_char_ne_nil sep cs
      cases hr : py_split_char sep cs with
      | nil => exact absurd hr hne
      | cons r rs => simp
    · rw [if_neg hc]
      have hmem : sep ∈ cs := by
        rcases List.mem_cons.mp h with h1 | h2
        · exact absurd h1.symm hc
        · exact h2
      have hlen := ih hmem
      cases hr : py_split_char sep cs with
      | nil => rw [hr] at hlen; simp at hlen
      | cons r rs => rw [hr] at hlen; simpa using hlen

theorem py_split_char_getLastD (sep : Char) (l : List Char) :
    sep ∉ (py_split_char sep l).getLastD [] ∧
      (l = (py_split_char sep l).getLastD [] ∨
        ∃ pre, l = pre ++ sep :: (py_split_char sep l).getLastD []) := by
  induction l with
  | nil => simp [py_split_char]
  | cons c cs ih =>
    by_cases hc : c = sep
    · subst hc
      have hsplit : py_split_char c (c :: cs) = [] :: py_split_char c cs := by
        simp [py_split_char]
      have hlast : (py_split_char c (c :: cs)).getLastD [] =
          (py_split_char c cs).getLastD [] := by
        rw [hsplit, List.getLastD_cons]
      rw [hlast]
      refine ⟨ih.1, Or.inr ?_⟩
      rcases ih.2 with h1 | ⟨pre, h2⟩
      · exact ⟨[], congrArg (List.cons c) h1⟩
      · exact ⟨c :: pre, congrArg (List.cons c) h2⟩
    · have hne := py_split_char_ne_nil sep cs
      cases hr : py_split_char sep cs with
      | nil => exact absurd hr hne
      | cons r rs =>
        have hsplit : py_split_char sep (c :: cs) = (c :: r) :: rs := by
          simp only [py_split_char, if_neg hc, hr]
        rw [hr] at ih
        cases rs with
        | nil =>
          have hnotmem : sep ∉ cs := by
            intro hmem
            have hlen := py_split_char_length_ge_two sep cs hmem
            rw [hr] at hlen
            simp at hlen
          have hcs : cs = r := by
            have hent := py_split_char_of_not_mem sep cs hnotmem
            rw [hr] at hent
            injection hent with h3 h4
            exact h3.symm
          have hlast : (py_split_char sep (c :: cs)).getLastD [] = c :: r := by
            rw [hsplit]
            rfl
          rw [hlast]
          simp only [List.getLastD_cons, List.getLastD_nil] at ih
          subst hcs
          refine ⟨?_, Or.inl rfl⟩
          intro hmem
          rcases List.mem_cons.mp hmem with h1 | h2
          · exact hc h1.symm
          · exact ih.1 h2
        | cons r2 rs2 =>
          have hlast : (py_split_char sep (c :: cs)).getLastD [] =
              (r :: r2 :: rs2).getLastD [] := by
            simp [hsplit, List.getLastD_cons]
          rw [hlast]
          refine ⟨ih.1, Or.inr ?_⟩
          rcases ih.2 with h1 | ⟨pre, h2⟩
          · exfalso
            have hnm : sep ∉ cs := h1 ▸ ih.1
            have hent := py_split_char_of_not_mem sep cs hnm
            rw [hr] at hent
            simp at hent
          · exact ⟨c :: pre, congrArg (List.cons c) h2⟩

theorem foldl_min_mem (x : Int) (xs : List Int) :
    List.foldl min x xs ∈ x :: xs := by
  induction xs generalizing x with
  | nil => simp
  | cons y ys ih =>
    simp only [List.foldl_cons]
    rcases List.mem_cons.mp (ih (min x y)) with h1 | h1
    · rw [h1]
      rcases min_choice x y with hm | hm
      · rw [hm]
        exact List.mem_cons_self _ _
      · rw [hm]
        exact List.mem_cons_of_mem _ (List.mem_cons_self _ _)
    · exact List.mem_cons_of_mem _ (List.mem_cons_of_mem _ h1)

theorem foldl_min_le (x : Int) (xs : List Int) :
    ∀ y ∈ x :: xs, List.foldl min x xs ≤ y := by
  induction xs generalizing x with
  | nil =>
    intro y hy
    simp only [List.mem_singleton] at hy
    subst hy
    exact le_refl _
  | cons z zs ih =>
    intro y hy
    have hhead : List.foldl min x (z :: zs) ≤ min x z := by
      simp only [List.foldl_cons]
      exact ih (min x z) (min x z) (List.mem_cons_self _ _)
    rcases List.mem_cons.mp hy with h | h
    · subst h
      exact le_trans hhead (min_le_left _ _)
    · rcases List.mem_cons.mp h with h2 | h2
      · subst h2
        exact le_trans hhead (min_le_right _ _)
      · simp only [List.foldl_cons]
        exact ih (min x z) y (List.mem_cons_of_mem _ h2)

theorem load_model_pytorch_eq (pytorch_hub : PytorchHub)
    (spacy_hub : SpacyHub) (model_config : ModelConfig)
    (task_config : TaskConfig) (evaluation_config : EvaluationConfig)
    (h : model_config.framework = Framework.pytorch) :
    load_model pytorch_hub spacy_hub model_config task_config
        evaluation_config =
      (model_config,
        load_pytorch_model pytorch_hub model_config false task_config
          evaluation_config) := by
  simp [load_model, h]

theorem load_model_jax_eq (pytorch_hub : PytorchHub) (spacy_hub : SpacyHub)
    (model_config : ModelConfig) (task_config : TaskConfig)
    (evaluation_config : EvaluationConfig)
    (h : model_config.framework = Framework.jax) :
    load_model pytorch_hub spacy_hub model_config task_config
        evaluation_config =
      ({ model_config with framework := Framework.pytorch },
        load_pytorch_model pytorch_hub
          { model_config with framework := Framework.pytorch } true
          task_config evaluation_config) := by
  simp [load_model, h]

theorem load_model_spacy_eq (pytorch_hub : PytorchHub) (spacy_hub : SpacyHub)
    (model_config : ModelConfig) (task_config : TaskConfig)
    (evaluation_config : EvaluationConfig)
    (h : model_config.framework = Framework.spacy) :
    load_model pytorch_hub spacy_hub model_config task_config
        evaluation_config =
      (model_config, load_spacy_model spacy_hub model_config.model_id) := by
  simp [load_model, h]

theorem load_pytorch_model_ok_shape (hub : PytorchHub)
    (model_config : ModelConfig) (from_flax : Bool) (task_config : TaskConfig)
    (evaluation_config : EvaluationConfig) (d : LoadDict)
    (h : load_pytorch_model hub model_config from_flax task_config
        evaluation_config = .ok d) :
    ∃ model tokenizer,
      pytorch_try_block hub model_config from_flax task_config
          evaluation_config = .ok model ∧
      d = [("model", Artifact.pt model),
        ("tokenizer", Artifact.tok tokenizer)] := by
  unfold load_pytorch_model at h
  split at h
  · exact Except.noConfusion h
  · rename_i model htb
    split at h
    · exact Except.noConfusion h
    · simp only [] at h
      split at h
      · exact Except.noConfusion h
      · rename_i tokenizer htok
        exact ⟨model, set_tokenizer_max_length tokenizer, htb,
          (Except.ok.inj h).symm⟩

theorem load_spacy_model_ok_shape (hub : SpacyHub) (model_id : String)
    (d : LoadDict) (h : load_spacy_model hub model_id = .ok d) :
    ∃ m, hub.spacy_load (local_model_id model_id) = .ok m ∧
      d = [("model", Artifact.spacyModel m)] := by
  unfold load_spacy_model at h
  split at h
  · exact Except.noConfusion h
  · exact Except.noConfusion h
  · simp only [] at h
    split at h
    · exact Except.noConfusion h
    · exact Except.noConfusion h
    · rename_i m hload
      exact ⟨m, hload, (Except.ok.inj h).symm⟩

/-! ### Claim theorems -/

/-- **C1.** For every model configuration whose framework is none of PYTORCH,
SPACY or JAX (any other member of the framework enum), `load_model` raises
`InvalidFramework` (the framework enum is validated before any delegation),
and the raised exception carries that framework value. -/
theorem load_model_invalid_framework (pytorch_hub : PytorchHub)
    (spacy_hub : SpacyHub) (model_config : ModelConfig)
    (task_config : TaskConfig) (evaluation_config : EvaluationConfig)
    (name : String) (h : model_config.framework = Framework.other name) :
    (load_model pytorch_hub spacy_hub model_config task_config
        evaluation_config).2 =
      Except.error (PyExc.invalidFramework
        (InvalidFramework.init model_config.framework)) ∧
    (InvalidFramework.init model_config.framework).framework =
      model_config.framework := by
  constructor
  · simp [load_model, h]
  · rfl

/-- Closed instance of C1: a configuration tagged with the unsupported
framework "tensorflow" is rejected with `InvalidFramework`. -/
theorem load_model_invalid_framework_witness :
    (load_model hub_ok spacy_ok mc_other tc0 ec0).2 =
      Except.error (PyExc.invalidFramework
        (InvalidFramework.init mc_other.framework)) ∧
    (InvalidFramework.init mc_other.framework).framework =
      mc_other.framework :=
  load_model_invalid_framework hub_ok spacy_ok mc_other tc0 ec0
    "tensorflow" rfl

/-- **C3.** `load_model` dispatches to exactly one of the two adapter
functions: for PYTORCH it calls `load_pytorch_model` with `from_flax = false`;
for JAX it calls `load_pytorch_model` with `from_flax = true` (JAX models are
converted to PyTorch, on the configuration rewritten to PYTORCH); for SPACY it
calls `load_spacy_model` with the configured model id. -/
theorem load_model_dispatch (pytorch_hub : PytorchHub) (spacy_hub : SpacyHub)
    (model_config : ModelConfig) (task_config : TaskConfig)
    (evaluation_config : EvaluationConfig) :
    (model_config.framework = Framework.pytorch →
      load_model pytorch_hub spacy_hub model_config task_config
          evaluation_config =
        (model_config,
          load_pytorch_model pytorch_hub model_config false task_config
            evaluation_config)) ∧
    (model_config.framework = Framework.jax →
      load_model pytorch_hub spacy_hub model_config task_config
          evaluation_config =
        ({ model_config with framework := Framework.pytorch },
          load_pytorch_model pytorch_hub
            { model_config with framework := Framework.pytorch } true
            task_config evaluation_config)) ∧
    (model_config.framework = Framework.spacy →
      load_model pytorch_hub spacy_hub model_config task_config
          evaluation_config =
        (model_config,
          load_spacy_model spacy_hub model_config.model_id)) := by
  refine ⟨fun h => ?_, fun h => ?_, fun h => ?_⟩ <;> simp [load_model, h]

/-- Closed instances of C3: one concrete dispatch per supported framework. -/
theorem load_model_dispatch_witness :
    load_model hub_ok spacy_ok mc_pt tc0 ec0 =
      (mc_pt, load_pytorch_model hub_ok mc_pt false tc0 ec0) ∧
    load_model hub_ok spacy_ok mc_jax tc0 ec0 =
      ({ mc_jax with framework := Framework.pytorch },
        load_pytorch_model hub_ok
          { mc_jax with framework := Framework.pytorch } true tc0 ec0) ∧
    load_model hub_ok spacy_ok mc_spacy tc0 ec0 =
      (mc_spacy, load_spacy_model spacy_ok mc_spacy.model_id) :=
  ⟨(load_model_dispatch hub_ok spacy_ok mc_pt tc0 ec0).1 rfl,
   (load_model_dispatch hub_ok spacy_ok mc_jax tc0 ec0).2.1 rfl,
   (load_model_dispatch hub_ok spacy_ok mc_spacy tc0 ec0).2.2 rfl⟩

/-- **C8.** `load_model` mutates its `model_config` argument: when the
requested framework is JAX, `model_config.framework` is overwritten to
PYTORCH before dispatch and the change is visible to the caller after
`load_model` returns; for every other framework value the configuration is
left unchanged by the dispatcher. -/
theorem load_model_config_mutation (pytorch_hub : PytorchHub)
    (spacy_hub : SpacyHub) (model_config : ModelConfig)
    (task_config : TaskConfig) (evaluation_config : EvaluationConfig) :
    (load_model pytorch_hub spacy_hub model_config task_config
        evaluation_config).1 =
      if model_config.framework = Framework.jax then
        { model_config with framework := Framework.pytorch }
      else model_config := by
  by_cases h : model_config.framework = Framework.jax
  · simp [load_model, h]
  · simp only [load_model, if_neg h]
    split
    · rfl
    · split <;> rfl

/-- **C2.** For every call to `load_model` with a supported framework
(PYTORCH, SPACY or JAX) that returns without raising, the returned value is a
dictionary that contains the key "model", whose value is the loaded model
object (the model instantiated by the `try` block on the PyTorch path, or the
pipeline returned by `spacy.load` on the spaCy path). -/
theorem load_model_returns_model_key (pytorch_hub : PytorchHub)
    (spacy_hub : SpacyHub) (model_config : ModelConfig)
    (task_config : TaskConfig) (evaluation_config : EvaluationConfig)
    (d : LoadDict)
    (hfr : model_config.framework = Framework.pytorch ∨
      model_config.framework = Framework.spacy ∨
      model_config.framework = Framework.jax)
    (h : (load_model pytorch_hub spacy_hub model_config task_config
        evaluation_config).2 = .ok d) :
    ∃ a, List.lookup "model" d = some a ∧
      ((∃ model, a = Artifact.pt model ∧
          pytorch_try_block pytorch_hub
            (load_model pytorch_hub spacy_hub model_config task_config
              evaluation_config).1
            (decide (model_config.framework = Framework.jax)) task_config
            evaluation_config = .ok model) ∨
       (∃ m, a = Artifact.spacyModel m ∧
          spacy_hub.spacy_load (local_model_id model_config.model_id) =
            .ok m)) := by
  rcases hfr with hf | hf | hf
  · rw [load_model_pytorch_eq pytorch_hub spacy_hub model_config task_config
      evaluation_config hf] at h ⊢
    obtain ⟨model, tokenizer, htb, hd⟩ :=
      load_pytorch_model_ok_shape pytorch_hub model_config false task_config
        evaluation_config d h
    subst hd
    refine ⟨Artifact.pt model, rfl, Or.inl ⟨model, rfl, ?_⟩⟩
    simpa [hf] using htb
  · rw [load_model_spacy_eq pytorch_hub spacy_hub model_config task_config
      evaluation_config hf] at h ⊢
    obtain ⟨m, hload, hd⟩ :=
      load_spacy_model_ok_shape spacy_hub model_config.model_id d h
    subst hd
    exact ⟨Artifact.spacyModel m, rfl, Or.inr ⟨m, rfl, hload⟩⟩
  · rw [load_model_jax_eq pytorch_hub spacy_hub model_config task_config
      evaluation_config hf] at h ⊢
    obtain ⟨model, tokenizer, htb, hd⟩ :=
      load_pytorch_model_ok_shape pytorch_hub
        { model_config with framework := Framework.pytorch } true task_config
        evaluation_config d h
    subst hd
    refine ⟨Artifact.pt model, rfl, Or.inl ⟨model, rfl, ?_⟩⟩
    simpa [hf] using htb

/-- Closed instance of C2: a successful spaCy load returns a dictionary whose
"model" key holds the pipeline returned by `spacy.load`. -/
theorem load_model_returns_model_key_witness :
    ∃ a, List.lookup "model" [("model", Artifact.spacyModel sm0)] = some a ∧
      ((∃ model, a = Artifact.pt model ∧
          pytorch_try_block hub_ok
            (load_model hub_ok spacy_ok mc_spacy tc0 ec0).1
            (decide (mc_spacy.framework = Framework.jax)) tc0 ec0 =
            .ok model) ∨
       (∃ m, a = Artifact.spacyModel m ∧
          spacy_ok.spacy_load (local_model_id mc_spacy.model_id) =
            .ok m)) :=
  load_model_returns_model_key hub_ok spacy_ok mc_spacy tc0 ec0
    [("model", Artifact.spacyModel sm0)] (Or.inr (Or.inl rfl)) rfl

/-- **C4.** In `load_pytorch_model`, every `OSError` or `ValueError` raised
during the `try` block (configuration retrieval, supertask checking,
model-class lookup, model instantiation) is translated into an
`InvalidEvaluation` exception; no `OSError` or `ValueError` from that phase
escapes to the caller untranslated. -/
theorem load_pytorch_model_error_translation (hub : PytorchHub)
    (model_config : ModelConfig) (from_flax : Bool) (task_config : TaskConfig)
    (evaluation_config : EvaluationConfig) (e : PyExc)
    (h : pytorch_try_block hub model_config from_flax task_config
        evaluation_config = .error e)
    (hov : (∃ msg, e = PyExc.osError msg) ∨
      (∃ msg, e = PyExc.valueError msg)) :
    load_pytorch_model hub model_config from_flax task_config
        evaluation_config =
      .error (.invalidEvaluation (InvalidEvaluation.init
        (pytorch_load_error_msg model_config.model_id))) := by
  rcases hov with ⟨msg, rfl⟩ | ⟨msg, rfl⟩ <;>
    simp [load_pytorch_model, h, translate_load_error]

/-- Closed instance of C4: an `OSError` from configuration retrieval surfaces
as `InvalidEvaluation`. -/
theorem load_pytorch_model_error_translation_witness :
    pytorch_try_block hub_os_err mc_pt false tc0 ec0 =
      .error (PyExc.osError "boom") ∧
    load_pytorch_model hub_os_err mc_pt false tc0 ec0 =
      .error (.invalidEvaluation (InvalidEvaluation.init
        (pytorch_load_error_msg mc_pt.model_id))) :=
  ⟨rfl, load_pytorch_model_error_translation hub_os_err mc_pt false tc0 ec0
    (PyExc.osError "boom") rfl (Or.inl ⟨"boom", rfl⟩)⟩

/-- **C5.** In `load_spacy_model`, every expected download failure is wrapped
in `ModelFetchFailed`: if installing the model wheel fails with
`CalledProcessError`, `ModelFetchFailed` is raised with the local model id and
the process output (and the default message template); if `spacy.load` raises
`OSError`, `ModelFetchFailed` is raised with the full model id and the error
text (and an explicit message). -/
theorem load_spacy_model_wraps_failures (hub : SpacyHub) (model_id : String) :
    (∀ output,
      spacy_install_step hub model_id =
          .error (.calledProcessError output) →
      load_spacy_model hub model_id =
        .error (.modelFetchFailed
          (ModelFetchFailed.init (local_model_id model_id) output ""))) ∧
    (∀ msg,
      spacy_install_step hub model_id = .ok () →
      hub.spacy_load (local_model_id model_id) = .error (.osError msg) →
      load_spacy_model hub model_id =
        .error (.modelFetchFailed (ModelFetchFailed.init model_id msg
          ("Download of " ++ model_id ++
            " failed, with the following error message: " ++ msg ++
            ".")))) := by
  constructor
  · intro output hstep
    simp [load_spacy_model, hstep]
  · intro msg hstep hload
    simp [load_spacy_model, hstep, hload]

/-- Closed instances of C5: a failing wheel installation and a failing
`spacy.load`, each wrapped in `ModelFetchFailed`. -/
theorem load_spacy_model_wraps_failures_witness :
    load_spacy_model spacy_cpe "spacy/da_core_news_sm" =
      .error (.modelFetchFailed
        (ModelFetchFailed.init (local_model_id "spacy/da_core_news_sm")
          "pip failed" "")) ∧
    load_spacy_model spacy_ose "spacy/da_core_news_sm" =
      .error (.modelFetchFailed
        (ModelFetchFailed.init "spacy/da_core_news_sm" "no model"
          ("Download of " ++ "spacy/da_core_news_sm" ++
            " failed, with the following error message: " ++ "no model" ++
            "."))) :=
  ⟨(load_spacy_model_wraps_failures spacy_cpe "spacy/da_core_news_sm").1
      "pip failed" rfl,
   (load_spacy_model_wraps_failures spacy_ose "spacy/da_core_news_sm").2
      "no model" rfl rfl⟩

/-- **C6.** In `load_pytorch_model`, the tokenizer max length is derived as
follows: if the tokenizer has no `model_max_length` attribute or its value
exceeds 1000, then `model_max_length` is set to the minimum of
`max_model_input_sizes.values()` when that collection exists and is
non-empty, and to 512 otherwise; if the tokenizer already has
`model_max_length` at most 1000, it is left unchanged. -/
theorem set_tokenizer_max_length_spec (t : Tokenizer) :
    (∀ len, t.model_max_length = some len → len ≤ 1000 →
      set_tokenizer_max_length t = t) ∧
    ((t.model_max_length = none ∨
        ∃ len, t.model_max_length = some len ∧ 1000 < len) →
      (∀ sizes, t.max_model_input_sizes = some sizes →
        sizes.map Prod.snd ≠ [] →
        ∃ m, (set_tokenizer_max_length t).model_max_length = some m ∧
          m ∈ sizes.map Prod.snd ∧ ∀ x ∈ sizes.map Prod.snd, m ≤ x) ∧
      ((t.max_model_input_sizes = none ∨ t.max_model_input_sizes = some []) →
        (set_tokenizer_max_length t).model_max_length = some 512)) := by
  refine ⟨?_, ?_⟩
  · intro len hlen hle
    have hnot : ¬ ((1000 : Int) < len) := not_lt.mpr hle
    simp [set_tokenizer_max_length, hlen, hnot]
  · intro hbig
    have hupd : (match t.model_max_length with
        | none => true
        | some len => decide (len > 1000)) = true := by
      rcases hbig with hn | ⟨len, hl, hgt⟩
      · rw [hn]
      · rw [hl]
        simpa using hgt
    refine ⟨?_, ?_⟩
    · intro sizes hsz hne
      cases hvals : sizes.map Prod.snd with
      | nil => exact absurd hvals hne
      | cons x xs =>
        refine ⟨List.foldl min x xs, ?_, ?_, ?_⟩
        · simp [set_tokenizer_max_length, hupd, hsz, hvals]
        · exact foldl_min_mem x xs
        · exact foldl_min_le x xs
    · intro hnone
      rcases hnone with hn | hn <;> simp [set_tokenizer_max_length, hupd, hn]

/-- Closed instances of C6: a tokenizer with a small `model_max_length` is
left unchanged; one with a huge `model_max_length` gets the minimum of its
registered input sizes. -/
theorem set_tokenizer_max_length_spec_witness :
    set_tokenizer_max_length tok0 = tok0 ∧
    (∃ m, (set_tokenizer_max_length tok_big).model_max_length = some m ∧
      m ∈ ([("a", (512 : Int)), ("b", 256)].map Prod.snd) ∧
      ∀ x ∈ ([("a", (512 : Int)), ("b", 256)].map Prod.snd), m ≤ x) :=
  ⟨(set_tokenizer_max_length_spec tok0).1 512 rfl (by decide),
   ((set_tokenizer_max_length_spec tok_big).2
      (Or.inr ⟨100000, rfl, by decide⟩)).1 [("a", 512), ("b", 256)] rfl
      (by decide)⟩

/-- **C7.** In `load_pytorch_model`, the prefix-space flag passed to the
tokenizer loader is derived from the loaded model: `add_prefix_space` is true
if and only if "Roberta" occurs in the name of the model's class, and the
tokenizer is always requested with `use_fast = true` (the fourth argument of
the tokenizer call below). -/
theorem load_pytorch_model_tokenizer_flags (hub : PytorchHub)
    (model_config : ModelConfig) (from_flax : Bool) (task_config : TaskConfig)
    (evaluation_config : EvaluationConfig) (model : PTModel)
    (h1 : pytorch_try_block hub model_config from_flax task_config
        evaluation_config = .ok model)
    (h2 : hub.adjust_model_to_task model model_config task_config = .ok ()) :
    load_pytorch_model hub model_config from_flax task_config
        evaluation_config =
      (hub.auto_tokenizer model_config.model_id model_config.revision
          evaluation_config.use_auth_token true
          (py_in_str "Roberta" model.class_name)).map
        (fun tokenizer =>
          [("model", Artifact.pt model),
           ("tokenizer", Artifact.tok (set_tokenizer_max_length tokenizer))]) ∧
    (py_in_str "Roberta" model.class_name = true ↔
      "Roberta".toList <:+: model.class_name.toList) := by
  constructor
  · cases hat : hub.auto_tokenizer model_config.model_id model_config.revision
        evaluation_config.use_auth_token true
        (py_in_str "Roberta" model.class_name) with
    | error e => simp [load_pytorch_model, h1, h2, hat, Except.map]
    | ok tokenizer => simp [load_pytorch_model, h1, h2, hat, Except.map]
  · unfold py_in_str
    exact decide_eq_true_iff

/-- Closed instance of C7 at a BERT-classed model: the prefix-space flag
evaluates over the class name and the tokenizer call is reproduced with
`use_fast = true`. -/
theorem load_pytorch_model_tokenizer_flags_witness :
    load_pytorch_model hub_ok mc_pt false tc0 ec0 =
      (hub_ok.auto_tokenizer mc_pt.model_id mc_pt.revision
          ec0.use_auth_token true
          (py_in_str "Roberta" bert_model.class_name)).map
        (fun tokenizer =>
          [("model", Artifact.pt bert_model),
           ("tokenizer", Artifact.tok (set_tokenizer_max_length tokenizer))]) ∧
    (py_in_str "Roberta" bert_model.class_name = true ↔
      "Roberta".toList <:+: bert_model.class_name.toList) :=
  load_pytorch_model_tokenizer_flags hub_ok mc_pt false tc0 ec0 bert_model
    rfl rfl

/-- **C9.** For every `model_id`, the dictionary returned by a successful
`load_spacy_model` contains exactly the single key "model" (no tokenizer or
other auxiliary component), and the spaCy pipeline is loaded under the local
name obtained by taking the substring of `model_id` after its last "/"
character (the local name contains no "/" and is the suffix of `model_id`
following its last "/", or all of `model_id` when it has none). -/
theorem load_spacy_model_result_shape (hub : SpacyHub) (model_id : String)
    (d : LoadDict) (h : load_spacy_model hub model_id = .ok d) :
    ∃ m, d = [("model", Artifact.spacyModel m)] ∧
      hub.spacy_load (local_model_id model_id) = .ok m ∧
      '/' ∉ (local_model_id model_id).toList ∧
      (model_id.toList = (local_model_id model_id).toList ∨
        ∃ pre, model_id.toList =
          pre ++ '/' :: (local_model_id model_id).toList) := by
  obtain ⟨m, hload, hd⟩ := load_spacy_model_ok_shape hub model_id d h
  have hchar := py_split_char_getLastD '/' model_id.toList
  have htl : (local_model_id model_id).toList =
      (py_split_char '/' model_id.toList).getLastD [] := rfl
  rw [htl]
  exact ⟨m, hd, hload, hchar.1, hchar.2⟩

/-- Closed instance of C9: loading "spacy/da_core_news_sm" yields the
single-key dictionary and the local name "da_core_news_sm". -/
theorem load_spacy_model_result_shape_witness :
    ∃ m, ([("model", Artifact.spacyModel sm0)] : LoadDict) =
        [("model", Artifact.spacyModel m)] ∧
      spacy_ok.spacy_load (local_model_id "spacy/da_core_news_sm") = .ok m ∧
      '/' ∉ (local_model_id "spacy/da_core_news_sm").toList ∧
      ("spacy/da_core_news_sm".toList =
          (local_model_id "spacy/da_core_news_sm").toList ∨
        ∃ pre, "spacy/da_core_news_sm".toList =
          pre ++ '/' :: (local_model_id "spacy/da_core_news_sm").toList) :=
  load_spacy_model_result_shape spacy_ok "spacy/da_core_news_sm"
    [("model", Artifact.spacyModel sm0)] rfl

/-- **C10.** For every `model_id` and `error_msg`, constructing
`ModelFetchFailed` with an empty message argument produces an exception whose
message equals the template "Download of {model_id} from the Hugging Face Hub
failed, with the following error message: {error_msg}.", while a non-empty
message argument is used verbatim; in both cases the exception stores
`model_id` and `error_msg` as attributes. -/
theorem model_fetch_failed_init_spec (model_id error_msg message : String)
    (hm : message ≠ "") :
    (ModelFetchFailed.init model_id error_msg "").message =
      "Download of " ++ model_id ++
        " from the Hugging Face Hub failed, with the following error message: "
        ++ error_msg ++ "." ∧
    (ModelFetchFailed.init model_id error_msg message).message = message ∧
    (ModelFetchFailed.init model_id error_msg "").model_id = model_id ∧
    (ModelFetchFailed.init model_id error_msg "").error_msg = error_msg ∧
    (ModelFetchFailed.init model_id error_msg message).model_id = model_id ∧
    (ModelFetchFailed.init model_id error_msg message).error_msg =
      error_msg := by
  refine ⟨rfl, ?_, rfl, rfl, rfl, rfl⟩
  simp [ModelFetchFailed.init, hm]

/-- Closed instance of C10 at a concrete model id, error text and custom
message. -/
theorem model_fetch_failed_init_spec_witness :
    (ModelFetchFailed.init "org/m" "oops" "").message =
      "Download of " ++ "org/m" ++
        " from the Hugging Face Hub failed, with the following error message: "
        ++ "oops" ++ "." ∧
    (ModelFetchFailed.init "org/m" "oops" "custom").message = "custom" ∧
    (ModelFetchFailed.init "org/m" "oops" "").model_id = "org/m" ∧
    (ModelFetchFailed.init "org/m" "oops" "").error_msg = "oops" ∧
    (ModelFetchFailed.init "org/m" "oops" "custom").model_id = "org/m" ∧
    (ModelFetchFailed.init "org/m" "oops" "custom").error_msg = "oops" :=
  model_fetch_failed_init_spec "org/m" "oops" "custom" (by decide)

end AiaiEval
